import Mathlib

/-!
Shallow embedding of the activity-logging / change-diff subsystem of the
todo CRUD service: `src/controllers/todoController.js` (TodoController),
`src/controllers/activityController.js` (ActivityController) over the
SQLite schema created in `src/config/database.js`.

Modelling conventions:
* SQLite rows become Lean structures; the two tables live in a `DB` record
  together with the AUTOINCREMENT counters and a logical clock standing for
  `CURRENT_TIMESTAMP`.
* The `BOOLEAN` column `completed` is stored by sqlite as the integer the
  code binds (`0`/`1`, default `0`), so it is a `Nat` in `TodoRow`.
* JSON snapshot values (`old_value` / `new_value`, serialized with
  `JSON.stringify` by `logActivity`) are modelled structurally by `Snap`;
  `none` in an `Option` field stands for a JSON `null` or (for `id`,
  `created_at`, `updated_at`) for a key dropped by `JSON.stringify`
  because the JavaScript value was `undefined`/absent.
* JavaScript request-body fields that may be absent become `Option`s; an
  explicitly supplied JSON `null` for `description` is `some none`.
* `String.prototype.trim` is modelled by `jsTrim` (whitespace stripped from
  both ends); `ORDER BY created_at DESC` is modelled by an insertion sort
  with the corresponding relation (SQLite leaves tie order unspecified, so
  any sort realising the ordering is a faithful model).
-/

/-- Whitespace-trimming of both ends of a string, modelling
`String.prototype.trim` as used on `title` and `description`. -/
def jsTrim (s : String) : String :=
  ⟨((s.data.dropWhile Char.isWhitespace).reverse.dropWhile Char.isWhitespace).reverse⟩

/-- Value of the `completed` key inside a serialized snapshot: the create
snapshot stores the JavaScript boolean `false`, a row snapshot stores the
integer the database holds, and a merged snapshot stores whatever the
request body supplied. `JSON.stringify` distinguishes the two. -/
inductive CompletedVal where
  | asBool : Bool → CompletedVal
  | asInt : Nat → CompletedVal
deriving DecidableEq, Repr

/-- Structural model of a serialized todo snapshot (the JSON object that
`logActivity` passes through `JSON.stringify` into `old_value` /
`new_value`). `id := none` means the key was dropped because the
JavaScript value was `undefined`; `description := none` means JSON `null`;
absent timestamps (`none`) occur in the create snapshot, which is built
by hand without them. -/
structure Snap where
  id : Option Nat
  title : String
  description : Option String
  completed : CompletedVal
  created_at : Option Nat
  updated_at : Option Nat
deriving DecidableEq, Repr

/-- Row of the `todos` table (`src/config/database.js`): `id INTEGER
PRIMARY KEY AUTOINCREMENT, title TEXT NOT NULL, description TEXT,
completed BOOLEAN DEFAULT 0, created_at, updated_at DATETIME`. -/
structure TodoRow where
  id : Nat
  title : String
  description : Option String
  completed : Nat
  created_at : Nat
  updated_at : Nat
deriving DecidableEq, Repr

/-- Row of the `activities` table: `id INTEGER PRIMARY KEY AUTOINCREMENT,
todo_id INTEGER, action TEXT NOT NULL, description TEXT, old_value TEXT,
new_value TEXT, user_ip TEXT, user_agent TEXT, created_at DATETIME`.
`todo_id` is nullable (sqlite binds a JavaScript `undefined` as NULL);
foreign keys are never enabled by the code (`PRAGMA foreign_keys` is not
issued), so the declared `ON DELETE SET NULL` clause has no effect at
runtime and deleting a todo leaves activity rows untouched. -/
structure ActivityRow where
  id : Nat
  todo_id : Option Nat
  action : String
  description : String
  old_value : Option Snap
  new_value : Option Snap
  user_ip : Option String
  user_agent : Option String
  created_at : Nat
deriving DecidableEq, Repr

/-- The persistent store shared by both controllers: the two tables, the
next AUTOINCREMENT values, and a logical clock for `CURRENT_TIMESTAMP`. -/
structure DB where
  todos : List TodoRow
  nextTodoId : Nat
  activities : List ActivityRow
  nextActivityId : Nat
  clock : Nat
deriving DecidableEq, Repr

/-- Snapshot of a full stored row, as produced by `SELECT *` and then
`JSON.stringify` (update's `old_value`, delete's `old_value`). -/
def rowSnap (r : TodoRow) : Snap :=
  { id := some r.id, title := r.title, description := r.description,
    completed := .asInt r.completed,
    created_at := some r.created_at, updated_at := some r.updated_at }

/-- Partial update request body `{title?, description?, completed?}` as
destructured by `updateTodo`. `description = some none` is an explicit
JSON `null`. -/
structure UpdateBody where
  title : Option String
  description : Option (Option String)
  completed : Option Bool
deriving DecidableEq, Repr

/-- The object `{ ...currentTodo, ...req.body }` built by `updateTodo` as
the UPDATE activity's `new_value`: every key of the raw request body
overwrites the corresponding key of the stored row (raw, untrimmed values;
a supplied boolean stays a boolean, a supplied `null` description stays
`null`), all other keys keep the stored row's values. -/
def mergedSnap (cur : TodoRow) (body : UpdateBody) : Snap :=
  { id := some cur.id
    title := match body.title with
      | none => cur.title
      | some t => t
    description := match body.description with
      | none => cur.description
      | some d => d
    completed := match body.completed with
      | none => .asInt cur.completed
      | some b => .asBool b
    created_at := some cur.created_at
    updated_at := some cur.updated_at }

/-- ActivityController.createActivity: `INSERT INTO activities (todo_id,
action, description, old_value, new_value, user_ip, user_agent) VALUES
(?,?,?,?,?,?,?)`, resolving with `this.lastID` or rejecting with the
store error. `storeFails` models the underlying write failing. -/
def createActivity (storeFails : Bool) (db : DB) (todoId : Option Nat)
    (action descr : String) (oldV newV : Option Snap)
    (ip ua : Option String) : Except Unit (Nat × DB) :=
  if storeFails then .error ()
  else
    .ok (db.nextActivityId,
      { db with
        activities := db.activities ++
          [{ id := db.nextActivityId, todo_id := todoId, action := action,
             description := descr, old_value := oldV, new_value := newV,
             user_ip := ip, user_agent := ua, created_at := db.clock }]
        nextActivityId := db.nextActivityId + 1 })

/-- TodoController.logActivity: forwards the record to
`activityController.createActivity` inside a `try/catch`; a rejection is
only written to `console.error` and never rethrown, so the caller's state
is simply left as-is when the append fails. -/
def logActivity (storeFails : Bool) (db : DB) (todoId : Option Nat)
    (action descr : String) (oldV newV : Option Snap)
    (ip ua : Option String) : DB :=
  match createActivity storeFails db todoId action descr oldV newV ip ua with
  | .error _ => db
  | .ok (_, db1) => db1

/-- Outcome of `createTodo`: HTTP 400 `{error: 'Title is required'}`, or
HTTP 201 with the spread of the hand-built `newTodo` object plus a
`message` field. -/
inductive CreateResult where
  | validationError : CreateResult
  | created : Snap → String → CreateResult
deriving DecidableEq, Repr

/-- Outcome of `updateTodo`: 404 `Todo not found`, 400 `Title cannot be
empty`, 400 `No changes detected`, or 200 `Todo updated successfully`. -/
inductive UpdateResult where
  | notFound : UpdateResult
  | validationError : UpdateResult
  | noChange : UpdateResult
  | ok : UpdateResult
deriving DecidableEq, Repr

/-- Outcome of `deleteTodo`: 404 `Todo not found` or 200 `Todo deleted
successfully`. -/
inductive DeleteResult where
  | notFound : DeleteResult
  | ok : DeleteResult
deriving DecidableEq, Repr

/-- Outcome of `getTodoById`: 404 or the raw row. -/
inductive GetTodoResult where
  | notFound : GetTodoResult
  | found : TodoRow → GetTodoResult
deriving DecidableEq, Repr

/-- TodoController.createTodo. Validation: `!title || title.trim() === ''`
rejects an absent, empty or whitespace-only title. On insert the trimmed
title and `description ? description.trim() : ''` are persisted (an empty
string is falsy, and trimming the empty string is the empty string, so the
falsy branch coincides with trimming). Then `const todoId = this.lastID`:
the `db.run` callback is an arrow function, so `this` is the
TodoController instance — which has no `lastID` property — and not the
sqlite3 Statement; the value is `undefined`, not the new rowid. Hence the
snapshot's `id` key is dropped by `JSON.stringify` and the activity's
`todo_id` binds as NULL. -/
def createTodo (storeFails : Bool) (db : DB) (title description : Option String)
    (ip ua : Option String) : CreateResult × DB :=
  match title with
  | none => (.validationError, db)
  | some t =>
    if jsTrim t == "" then (.validationError, db)
    else
      let descStr : String :=
        match description with
        | none => ""
        | some d => jsTrim d
      let newRow : TodoRow :=
        { id := db.nextTodoId, title := jsTrim t, description := some descStr,
          completed := 0, created_at := db.clock, updated_at := db.clock }
      let db1 : DB :=
        { db with todos := db.todos ++ [newRow], nextTodoId := db.nextTodoId + 1 }
      let todoId : Option Nat := none
      let newTodo : Snap :=
        { id := todoId, title := jsTrim t, description := some descStr,
          completed := .asBool false, created_at := none, updated_at := none }
      let db2 := logActivity storeFails db1 todoId "CREATE"
        ("Todo \"" ++ jsTrim t ++ "\" was created") none (some newTodo) ip ua
      (.created newTodo "Todo created successfully", db2)

/-- Title diff of `updateTodo`: when a title is supplied, compare the
trimmed proposal against the stored title; `some` of the trimmed new
value when it differs, `none` when the field is absent or unchanged. -/
def newTitle? (cur : TodoRow) (body : UpdateBody) : Option String :=
  match body.title with
  | none => none
  | some t => if jsTrim t == cur.title then none else some (jsTrim t)

/-- Description diff of `updateTodo`: `description ? description.trim() :
''` (null and empty are falsy) compared against `currentTodo.description
|| ''` (a NULL column reads as the empty string). -/
def newDescription? (cur : TodoRow) (body : UpdateBody) : Option String :=
  match body.description with
  | none => none
  | some d =>
    let nd := jsTrim (d.getD "")
    if nd == cur.description.getD "" then none else some nd

/-- Completed diff of `updateTodo`: the supplied value is normalized by
`completed ? 1 : 0` and compared against the stored integer. -/
def newCompleted? (cur : TodoRow) (body : UpdateBody) : Option Nat :=
  match body.completed with
  | none => none
  | some b =>
    let nc := if b then 1 else 0
    if nc == cur.completed then none else some nc

/-- The human-readable change lines pushed by `updateTodo`, in source
order (title, then description, then status): exactly one line per field
whose diff is `some`, no line for an absent or unchanged field. The
status line renders the stored integer's truthiness and the supplied
value's truthiness as `completed`/`pending`. -/
def changeLines (cur : TodoRow) (body : UpdateBody) : List String :=
  ((newTitle? cur body).map fun nt =>
      "Title changed from \"" ++ cur.title ++ "\" to \"" ++ nt ++ "\"").toList ++
  ((newDescription? cur body).map fun nd =>
      "Description changed from \"" ++ cur.description.getD "" ++ "\" to \"" ++ nd ++ "\"").toList ++
  ((newCompleted? cur body).map fun _ =>
      "Status changed from " ++ (if cur.completed != 0 then "completed" else "pending") ++
        " to " ++ (if body.completed.getD false then "completed" else "pending")).toList

/-- Body of `updateTodo` after the 404 check and the title validation:
computes the three diffs; `updateFields` and `changes` are pushed in
lockstep, so the `updateFields.length === 0` guard is the emptiness of
the change lines and yields 400 `No changes detected` leaving the store
untouched. Otherwise the changed columns plus `updated_at =
CURRENT_TIMESTAMP` are written to the row, and an UPDATE activity is
logged with the comma-joined change lines, the prior row as `old_value`
and `{ ...currentTodo, ...req.body }` as `new_value`. -/
def applyUpdate (storeFails : Bool) (db : DB) (id : Nat) (cur : TodoRow)
    (body : UpdateBody) (ip ua : Option String) : UpdateResult × DB :=
  let changes := changeLines cur body
  if changes.isEmpty then (.noChange, db)
  else
    let newRow : TodoRow :=
      { cur with
        title := (newTitle? cur body).getD cur.title
        description := match newDescription? cur body with
          | none => cur.description
          | some nd => some nd
        completed := (newCompleted? cur body).getD cur.completed
        updated_at := db.clock }
    let db1 : DB :=
      { db with todos := db.todos.map fun r => if r.id == id then newRow else r }
    let db2 := logActivity storeFails db1 (some id) "UPDATE"
      (String.intercalate ", " changes) (some (rowSnap cur))
      (some (mergedSnap cur body)) ip ua
    (.ok, db2)

/-- TodoController.updateTodo: loads the current row (404 when absent),
rejects a supplied-but-blank title with 400 (`!title || title.trim() ===
''`; the empty string is falsy and trims to itself), then proceeds to the
diff/persist/log body. -/
def updateTodo (storeFails : Bool) (db : DB) (id : Nat) (body : UpdateBody)
    (ip ua : Option String) : UpdateResult × DB :=
  match db.todos.find? (fun r => r.id == id) with
  | none => (.notFound, db)
  | some cur =>
    match body.title with
    | some t =>
      if jsTrim t == "" then (.validationError, db)
      else applyUpdate storeFails db id cur body ip ua
    | none => applyUpdate storeFails db id cur body ip ua

/-- TodoController.deleteTodo: loads the row (404 when absent), runs
`DELETE FROM todos WHERE id = ?`, then logs a DELETE activity with the
pre-delete snapshot as `old_value` and NULL `new_value`. -/
def deleteTodo (storeFails : Bool) (db : DB) (id : Nat)
    (ip ua : Option String) : DeleteResult × DB :=
  match db.todos.find? (fun r => r.id == id) with
  | none => (.notFound, db)
  | some todo =>
    let db1 : DB := { db with todos := db.todos.filter fun r => !(r.id == id) }
    let db2 := logActivity storeFails db1 (some id) "DELETE"
      ("Todo \"" ++ todo.title ++ "\" was deleted") (some (rowSnap todo)) none ip ua
    (.ok, db2)

/-- TodoController.getTodoById: `SELECT * FROM todos WHERE id = ?`,
404 when no row matches. -/
def getTodoById (db : DB) (id : Nat) : GetTodoResult :=
  match db.todos.find? (fun r => r.id == id) with
  | none => .notFound
  | some row => .found row

/-- An activity row enriched by the `LEFT JOIN todos t ON a.todo_id =
t.id` with `t.title as todo_title`; `none` when the referenced todo no
longer exists (or `todo_id` is NULL). -/
structure JoinedActivity where
  activity : ActivityRow
  todo_title : Option String
deriving DecidableEq, Repr

/-- The LEFT JOIN enrichment of one activity row: the title of the todo
whose `id` equals `todo_id`, when such a todo exists. -/
def joinTitle (db : DB) (a : ActivityRow) : JoinedActivity :=
  { activity := a,
    todo_title := (db.todos.find? fun t => some t.id == a.todo_id).map fun t => t.title }

/-- The `WHERE a.todo_id = ?` filter of the list query: absent filter
keeps every row; a NULL `todo_id` never equals a bound value. -/
def filterByTodo (db : DB) (todoFilter : Option Nat) : List ActivityRow :=
  match todoFilter with
  | none => db.activities
  | some tid => db.activities.filter fun a => a.todo_id == some tid

/-- The `ORDER BY a.created_at DESC` relation: most recent first. -/
def byCreatedDesc (x y : JoinedActivity) : Prop :=
  y.activity.created_at ≤ x.activity.created_at

instance : DecidableRel byCreatedDesc :=
  fun x y => Nat.decLe y.activity.created_at x.activity.created_at

instance : IsTotal JoinedActivity byCreatedDesc :=
  ⟨fun x y => Nat.le_total y.activity.created_at x.activity.created_at⟩

instance : IsTrans JoinedActivity byCreatedDesc :=
  ⟨fun _ _ _ h1 h2 => Nat.le_trans h2 h1⟩

/-- The joined, filtered and ordered rows of the paging query of
`getAllActivities` (before LIMIT/OFFSET are applied). -/
def listQuery (db : DB) (todoFilter : Option Nat) : List JoinedActivity :=
  ((filterByTodo db todoFilter).map (joinTitle db)).insertionSort byCreatedDesc

/-- The separate `SELECT COUNT(*) as total FROM activities [WHERE todo_id
= ?]` statement run by `getAllActivities` for the pagination block. -/
def countQuery (db : DB) (todoFilter : Option Nat) : Nat :=
  match todoFilter with
  | none => db.activities.length
  | some tid => (db.activities.filter fun a => a.todo_id == some tid).length

/-- Response of `getAllActivities`: the page of activities plus the
pagination block `{page, limit, total, pages}`. -/
structure ListResult where
  activities : List JoinedActivity
  page : Nat
  limit : Nat
  total : Nat
  pages : Nat
deriving DecidableEq, Repr

/-- ActivityController.getAllActivities: `offset = (page - 1) * limit`,
`... ORDER BY a.created_at DESC LIMIT ? OFFSET ?`, then the count query;
`pages = Math.ceil(total / limit)`, which for a positive integer limit is
`(total + limit - 1) / limit` in integer arithmetic. -/
def getAllActivities (db : DB) (page limit : Nat) (todoFilter : Option Nat) : ListResult :=
  let offset := (page - 1) * limit
  { activities := ((listQuery db todoFilter).drop offset).take limit
    page := page
    limit := limit
    total := countQuery db todoFilter
    pages := (countQuery db todoFilter + limit - 1) / limit }

/-- ActivityController.getActivitiesByTodoId: same join, `WHERE a.todo_id
= ?`, same ordering, no pagination. -/
def getActivitiesByTodoId (db : DB) (todoId : Nat) : List JoinedActivity :=
  ((db.activities.filter fun a => a.todo_id == some todoId).map
      (joinTitle db)).insertionSort byCreatedDesc

/-- Outcome of `getActivityById`: 404 `Activity not found` or the single
joined row. -/
inductive GetActivityResult where
  | notFound : GetActivityResult
  | found : JoinedActivity → GetActivityResult
deriving DecidableEq, Repr

/-- ActivityController.getActivityById: the same LEFT JOIN restricted to
`WHERE a.id = ?`, `db.get` taking the first (only) matching row. -/
def getActivityById (db : DB) (id : Nat) : GetActivityResult :=
  match db.activities.find? (fun a => a.id == id) with
  | none => .notFound
  | some a => .found (joinTitle db a)

/-- Calendar-day projection standing for SQLite's `DATE(created_at)` on
the logical clock. -/
def dateOf (t : Nat) : Nat := t / 86400

/-- Response of `getActivityStats`: `{total, today, byAction, last7Days}`. -/
structure StatsResult where
  total : Nat
  today : Nat
  byAction : List (String × Nat)
  last7Days : List (Nat × Nat)
deriving DecidableEq, Repr

/-- The `ORDER BY date DESC` relation of the last-7-days query. -/
def byDateDesc (x y : Nat × Nat) : Prop := y.1 ≤ x.1

instance : DecidableRel byDateDesc := fun x y => Nat.decLe y.1 x.1

instance : IsTotal (Nat × Nat) byDateDesc := ⟨fun x y => Nat.le_total y.1 x.1⟩

instance : IsTrans (Nat × Nat) byDateDesc := ⟨fun _ _ _ h1 h2 => Nat.le_trans h2 h1⟩

/-- ActivityController.getActivityStats: the four aggregate queries run
over one store state — `COUNT(*)`, the current-day count, `GROUP BY
action` (one row per distinct action observed, counting its occurrences),
and the per-date counts of the 7 most recent distinct dates. -/
def getActivityStats (db : DB) : StatsResult :=
  let actions := db.activities.map fun a => a.action
  { total := db.activities.length
    today := (db.activities.filter fun a => dateOf a.created_at == dateOf db.clock).length
    byAction := actions.dedup.map fun s => (s, actions.count s)
    last7Days :=
      (((db.activities.map fun a => dateOf a.created_at).dedup.map fun d =>
          (d, (db.activities.filter fun a => dateOf a.created_at == d).length)).insertionSort
        byDateDesc).take 7 }

/-! Helper lemmas shared by several claim proofs. -/

/-- Logging an activity never touches the `todos` table, whether or not
the underlying append fails. -/
theorem logActivity_todos (sf : Bool) (db : DB) (tid : Option Nat)
    (act dsc : String) (ov nv : Option Snap) (ip ua : Option String) :
    (logActivity sf db tid act dsc ov nv ip ua).todos = db.todos := by
  cases sf <;> rfl

/-- Logging an activity with a succeeding append appends exactly one row. -/
theorem logActivity_ok_activities (db : DB) (tid : Option Nat)
    (act dsc : String) (ov nv : Option Snap) (ip ua : Option String) :
    (logActivity false db tid act dsc ov nv ip ua).activities =
      db.activities ++
        [{ id := db.nextActivityId, todo_id := tid, action := act,
           description := dsc, old_value := ov, new_value := nv,
           user_ip := ip, user_agent := ua, created_at := db.clock }] := rfl

/-- A predicate finds nothing in a list filtered by its own negation. -/
theorem find?_filter_not {α : Type} (p : α → Bool) (l : List α) :
    (l.filter fun x => !(p x)).find? p = none := by
  apply List.find?_eq_none.mpr
  intro x hx
  have h := (List.mem_filter.mp hx).2
  simp only [Bool.not_eq_true'] at h
  simp [h]

/-! Claim C1. -/

/-- Empty store right after table creation: both AUTOINCREMENT counters
at 1. -/
def emptyDB : DB :=
  { todos := [], nextTodoId := 1, activities := [], nextActivityId := 1, clock := 100 }

/-- C1: creating `{title: "Buy milk"}` on an empty store persists the row
with store-assigned id 1, but — because `const todoId = this.lastID` reads
a property of the TodoController instance from inside an arrow callback,
not the sqlite3 Statement — the CREATE activity's `todo_id` is NULL (not
the store-assigned id), the activity's `new_value` snapshot and the 201
response body both lack the `id` key, contradicting the claim that they
carry the store-assigned id. Trimming, the empty-string default
description, `completed = false`, `old_value = null` and the description
string all behave as claimed. -/
theorem createTodo_lastID_is_undefined :
    (createTodo false emptyDB (some "Buy milk") none none none).2.todos =
      [{ id := 1, title := "Buy milk", description := some "", completed := 0,
         created_at := 100, updated_at := 100 }] ∧
    (createTodo false emptyDB (some "Buy milk") none none none).2.activities =
      [{ id := 1, todo_id := none, action := "CREATE",
         description := "Todo \"Buy milk\" was created", old_value := none,
         new_value := some { id := none, title := "Buy milk", description := some "",
                             completed := .asBool false, created_at := none,
                             updated_at := none },
         user_ip := none, user_agent := none, created_at := 100 }] ∧
    ((createTodo false emptyDB (some "Buy milk") none none none).2.activities.all
      fun a => !(a.todo_id == some 1)) = true ∧
    (createTodo false emptyDB (some "Buy milk") none none none).1 =
      .created { id := none, title := "Buy milk", description := some "",
                 completed := .asBool false, created_at := none, updated_at := none }
        "Todo created successfully" := by
  refine ⟨?_, ?_, ?_, ?_⟩ <;> decide

/-! Claim C4. -/

/-- C4: for create, update and delete alike, a `StoreError` raised by the
internally invoked activity append is swallowed inside `logActivity`: the
result sent to the caller and the resulting `todos` table are identical
whether the append fails or succeeds, and no error propagates (the
embedded operations are total functions either way). -/
theorem mutation_unaffected_by_append_failure (db : DB)
    (title descr ip ua : Option String) (uid did : Nat) (body : UpdateBody) :
    (createTodo true db title descr ip ua).1 = (createTodo false db title descr ip ua).1 ∧
    (createTodo true db title descr ip ua).2.todos =
      (createTodo false db title descr ip ua).2.todos ∧
    (updateTodo true db uid body ip ua).1 = (updateTodo false db uid body ip ua).1 ∧
    (updateTodo true db uid body ip ua).2.todos =
      (updateTodo false db uid body ip ua).2.todos ∧
    (deleteTodo true db did ip ua).1 = (deleteTodo false db did ip ua).1 ∧
    (deleteTodo true db did ip ua).2.todos = (deleteTodo false db did ip ua).2.todos := by
  refine ⟨?_, ?_, ?_, ?_, ?_, ?_⟩
  · cases title with
    | none => rfl
    | some t => cases h : jsTrim t == "" <;> simp [createTodo, h]
  · cases title with
    | none => rfl
    | some t => cases h : jsTrim t == "" <;> simp [createTodo, h, logActivity_todos]
  · cases hf : db.todos.find? (fun r => r.id == uid) with
    | none => simp [updateTodo, hf]
    | some cur =>
      cases hbt : body.title with
      | none =>
        cases hc : (changeLines cur body).isEmpty <;>
          simp [updateTodo, hf, hbt, applyUpdate, hc]
      | some t =>
        cases h : jsTrim t == "" <;>
          cases hc : (changeLines cur body).isEmpty <;>
            simp [updateTodo, hf, hbt, applyUpdate, h, hc]
  · cases hf : db.todos.find? (fun r => r.id == uid) with
    | none => simp [updateTodo, hf]
    | some cur =>
      cases hbt : body.title with
      | none =>
        cases hc : (changeLines cur body).isEmpty <;>
          simp [updateTodo, hf, hbt, applyUpdate, hc, logActivity_todos]
      | some t =>
        cases h : jsTrim t == "" <;>
          cases hc : (changeLines cur body).isEmpty <;>
            simp [updateTodo, hf, hbt, applyUpdate, h, hc, logActivity_todos]
  · cases hf : db.todos.find? (fun r => r.id == did) with
    | none => simp [deleteTodo, hf]
    | some todo => simp [deleteTodo, hf]
  · cases hf : db.todos.find? (fun r => r.id == did) with
    | none => simp [deleteTodo, hf]
    | some todo => simp [deleteTodo, hf, logActivity_todos]

/-! Claim C2. -/

/-- C2: a successful update of an existing todo (valid title when
supplied, at least one field actually changed) logs exactly one UPDATE
activity whose `description` is the comma-separated join of the change
lines — one line per changed field, none for unchanged fields — whose
`old_value` is the full prior snapshot and whose `new_value` is the
spread-merge of the prior snapshot with the supplied request body. -/
theorem updateTodo_logs_fine_grained_diff (db : DB) (id : Nat)
    (body : UpdateBody) (ip ua : Option String) (cur : TodoRow)
    (hfind : db.todos.find? (fun r => r.id == id) = some cur)
    (hvalid : ∀ t, body.title = some t → jsTrim t ≠ "")
    (hchanged : changeLines cur body ≠ []) :
    (updateTodo false db id body ip ua).1 = .ok ∧
    (updateTodo false db id body ip ua).2.activities = db.activities ++
      [{ id := db.nextActivityId, todo_id := some id, action := "UPDATE",
         description := String.intercalate ", " (changeLines cur body),
         old_value := some (rowSnap cur), new_value := some (mergedSnap cur body),
         user_ip := ip, user_agent := ua, created_at := db.clock }] := by
  have hempty : (changeLines cur body).isEmpty = false := by
    cases h : changeLines cur body with
    | nil => exact absurd h hchanged
    | cons a l => simp [h]
  cases hbt : body.title with
  | none =>
    simp [updateTodo, hfind, hbt, applyUpdate, hempty, logActivity, createActivity]
  | some t =>
    have ht := hvalid t hbt
    have ht' : (jsTrim t == "") = false := by simp [ht]
    simp [updateTodo, hfind, hbt, ht', applyUpdate, hempty, logActivity, createActivity]

/-- Store holding the single todo used by the C2 and C3 witnesses. -/
def todoW : TodoRow :=
  { id := 1, title := "Buy milk", description := some "", completed := 0,
    created_at := 50, updated_at := 50 }

/-- One-todo store used by the C2 and C3 witnesses. -/
def dbW : DB :=
  { todos := [todoW], nextTodoId := 2, activities := [], nextActivityId := 1,
    clock := 200 }

/-- Body supplying only `completed: true` (a change, since the stored
value is 0). -/
def bodyCompleted : UpdateBody :=
  { title := none, description := none, completed := some true }

/-- C2 witness: updating todo 1 of `dbW` with `{completed: true}` logs
exactly the single-line UPDATE activity. -/
theorem updateTodo_logs_fine_grained_diff_witness :
    (updateTodo false dbW 1 bodyCompleted none none).1 = .ok ∧
    (updateTodo false dbW 1 bodyCompleted none none).2.activities =
      dbW.activities ++
      [{ id := dbW.nextActivityId, todo_id := some 1, action := "UPDATE",
         description := String.intercalate ", " (changeLines todoW bodyCompleted),
         old_value := some (rowSnap todoW),
         new_value := some (mergedSnap todoW bodyCompleted),
         user_ip := none, user_agent := none, created_at := dbW.clock }] :=
  updateTodo_logs_fine_grained_diff dbW 1 bodyCompleted none none todoW
    (by decide) (fun t h => nomatch h) (by decide)

/-! Claim C3. -/

/-- C3: an update request on an existing (well-formed, hence non-empty
titled) todo in which every supplied field equals the stored value — the
title compared after trimming, the description compared after trimming
with null/absent read as the empty string, the completed flag normalized
to 0/1 — fails with `NoChange` whatever subset of fields was supplied,
leaves the whole store unchanged and appends no activity. -/
theorem updateTodo_noop_rejected_noChange (db : DB) (id : Nat)
    (body : UpdateBody) (ip ua : Option String) (cur : TodoRow)
    (hfind : db.todos.find? (fun r => r.id == id) = some cur)
    (htitle : cur.title ≠ "")
    (ht : ∀ t, body.title = some t → jsTrim t = cur.title)
    (hd : ∀ d, body.description = some d → jsTrim (d.getD "") = cur.description.getD "")
    (hc : ∀ b, body.completed = some b → (if b then 1 else 0 : Nat) = cur.completed) :
    updateTodo false db id body ip ua = (.noChange, db) := by
  have hnt : newTitle? cur body = none := by
    cases hbt : body.title with
    | none => simp [newTitle?, hbt]
    | some t => simp [newTitle?, hbt, ht t hbt]
  have hnd : newDescription? cur body = none := by
    cases hbd : body.description with
    | none => simp [newDescription?, hbd]
    | some d => simp [newDescription?, hbd, hd d hbd]
  have hnc : newCompleted? cur body = none := by
    cases hbc : body.completed with
    | none => simp [newCompleted?, hbc]
    | some b => simp [newCompleted?, hbc, hc b hbc]
  have hlines : changeLines cur body = [] := by
    simp [changeLines, hnt, hnd, hnc]
  cases hbt : body.title with
  | none => simp [updateTodo, hfind, hbt, applyUpdate, hlines]
  | some t =>
    have ht' : (jsTrim t == "") = false := by
      have := ht t hbt
      simp [this, htitle]
    simp [updateTodo, hfind, hbt, ht', applyUpdate, hlines]

/-- Body resupplying the identical title (and nothing else). -/
def bodySameTitle : UpdateBody :=
  { title := some "  Buy milk  ", description := none, completed := none }

/-- C3 witness: resubmitting todo 1's own title (up to surrounding
whitespace) to `dbW` is rejected with `NoChange` and the store — in
particular the activity log — is untouched. -/
theorem updateTodo_noop_rejected_noChange_witness :
    updateTodo false dbW 1 bodySameTitle none none = (.noChange, dbW) :=
  updateTodo_noop_rejected_noChange dbW 1 bodySameTitle none none todoW
    (by decide) (by decide) (fun t h => by cases h; decide)
    (fun d h => nomatch h) (fun b h => nomatch h)

/-! Claim C5. -/

/-- The paging query returns as many rows (before LIMIT/OFFSET) as the
separate count query reports. -/
theorem listQuery_length (db : DB) (tf : Option Nat) :
    (listQuery db tf).length = countQuery db tf := by
  cases tf with
  | none =>
    simp [listQuery, countQuery, filterByTodo,
      (List.perm_insertionSort byCreatedDesc _).length_eq]
  | some tid =>
    simp [listQuery, countQuery, filterByTodo,
      (List.perm_insertionSort byCreatedDesc _).length_eq]

/-- C5: for a list call with 1-indexed page `P` and positive limit `L`,
`total` is the row count of the same `todo_id` filter, `pages` is the
ceiling of `total / L` (characterized as the least `q` with `total ≤ L *
q`), the returned page is the slice of the ordered query starting at
offset `(P - 1) * L`, and any page strictly beyond `pages` yields an
empty activity array while `total` matches the page-1 call. -/
theorem getAllActivities_pagination (db : DB) (L P : Nat) (tf : Option Nat)
    (hL : 1 ≤ L) (hP : 1 ≤ P) :
    (getAllActivities db P L tf).total = (filterByTodo db tf).length ∧
    (getAllActivities db P L tf).activities =
      ((listQuery db tf).drop ((P - 1) * L)).take L ∧
    (getAllActivities db P L tf).total ≤ L * (getAllActivities db P L tf).pages ∧
    (∀ q : Nat, (getAllActivities db P L tf).total ≤ L * q →
      (getAllActivities db P L tf).pages ≤ q) ∧
    ((getAllActivities db P L tf).pages < P →
      (getAllActivities db P L tf).activities = [] ∧
      (getAllActivities db P L tf).total = (getAllActivities db 1 L tf).total) := by
  have hL0 : 0 < L := hL
  have htotal : (getAllActivities db P L tf).total = (filterByTodo db tf).length := by
    cases tf <;> rfl
  refine ⟨htotal, rfl, ?_, ?_, ?_⟩
  · show countQuery db tf ≤ L * ((countQuery db tf + L - 1) / L)
    have hdm := Nat.div_add_mod (countQuery db tf + L - 1) L
    have hmlt := Nat.mod_lt (countQuery db tf + L - 1) hL0
    omega
  · intro q hq
    show (countQuery db tf + L - 1) / L ≤ q
    rw [Nat.div_le_iff_le_mul_add_pred hL0]
    have : countQuery db tf ≤ L * q := hq
    omega
  · intro hlt
    refine ⟨?_, ?_⟩
    · show (((listQuery db tf).drop ((P - 1) * L)).take L) = []
      have hlen : (listQuery db tf).length ≤ (P - 1) * L := by
        have h1 : countQuery db tf ≤ L * ((countQuery db tf + L - 1) / L) := by
          have hdm := Nat.div_add_mod (countQuery db tf + L - 1) L
          have hmlt := Nat.mod_lt (countQuery db tf + L - 1) hL0
          omega
        have h2 : (countQuery db tf + L - 1) / L ≤ P - 1 := by
          have : (countQuery db tf + L - 1) / L < P := hlt
          omega
        have h3 : L * ((countQuery db tf + L - 1) / L) ≤ L * (P - 1) :=
          Nat.mul_le_mul_left L h2
        rw [listQuery_length]
        calc countQuery db tf ≤ L * (P - 1) := le_trans h1 h3
          _ = (P - 1) * L := Nat.mul_comm L (P - 1)
      rw [List.drop_eq_nil_of_le hlen, List.take_nil]
    · cases tf <;> rfl

/-- An activity row used to populate witness stores. -/
def actRow (i : Nat) (tid : Option Nat) (act : String) (t : Nat) : ActivityRow :=
  { id := i, todo_id := tid, action := act, description := "",
    old_value := none, new_value := none, user_ip := none, user_agent := none,
    created_at := t }

/-- Store with three logged activities, used by the C5 and C8 witnesses. -/
def dbActs : DB :=
  { todos := [todoW], nextTodoId := 2,
    activities := [actRow 1 (some 1) "CREATE" 10, actRow 2 (some 1) "UPDATE" 20,
                   actRow 3 none "DELETE" 30],
    nextActivityId := 4, clock := 40 }

/-- C5 witness: listing `dbActs` with limit 2 and page 5 (beyond the 2
pages of its 3 activities). -/
theorem getAllActivities_pagination_witness :
    (getAllActivities dbActs 5 2 none).total = (filterByTodo dbActs none).length ∧
    (getAllActivities dbActs 5 2 none).activities =
      ((listQuery dbActs none).drop ((5 - 1) * 2)).take 2 ∧
    (getAllActivities dbActs 5 2 none).total ≤ 2 * (getAllActivities dbActs 5 2 none).pages ∧
    (∀ q : Nat, (getAllActivities dbActs 5 2 none).total ≤ 2 * q →
      (getAllActivities dbActs 5 2 none).pages ≤ q) ∧
    ((getAllActivities dbActs 5 2 none).pages < 5 →
      (getAllActivities dbActs 5 2 none).activities = [] ∧
      (getAllActivities dbActs 5 2 none).total = (getAllActivities dbActs 1 2 none).total) :=
  getAllActivities_pagination dbActs 2 5 none (by decide) (by decide)

/-! Claim C6. -/

/-- C6: a delete for an absent id fails with `NotFound` leaving the whole
store (activities included) unchanged; a delete for an existing id removes
the row, appends exactly one DELETE activity whose `old_value` is the
pre-delete snapshot, whose `new_value` is NULL and whose description names
the deleted title, after which `getTodoById` for that id is `NotFound`. -/
theorem deleteTodo_spec (db : DB) (id : Nat) (ip ua : Option String)
    (r : Option TodoRow)
    (hfind : db.todos.find? (fun x => x.id == id) = r) :
    match r with
    | none => deleteTodo false db id ip ua = (.notFound, db)
    | some todo =>
        (deleteTodo false db id ip ua).1 = .ok ∧
        (deleteTodo false db id ip ua).2.todos =
          db.todos.filter (fun x => !(x.id == id)) ∧
        (deleteTodo false db id ip ua).2.activities = db.activities ++
          [{ id := db.nextActivityId, todo_id := some id, action := "DELETE",
             description := "Todo \"" ++ todo.title ++ "\" was deleted",
             old_value := some (rowSnap todo), new_value := none,
             user_ip := ip, user_agent := ua, created_at := db.clock }] ∧
        getTodoById (deleteTodo false db id ip ua).2 id = .notFound := by
  cases r with
  | none => simp [deleteTodo, hfind]
  | some todo =>
    have hdel : deleteTodo false db id ip ua =
        (.ok, { db with
                todos := db.todos.filter fun x => !(x.id == id)
                activities := db.activities ++
                  [{ id := db.nextActivityId, todo_id := some id, action := "DELETE",
                     description := "Todo \"" ++ todo.title ++ "\" was deleted",
                     old_value := some (rowSnap todo), new_value := none,
                     user_ip := ip, user_agent := ua, created_at := db.clock }]
                nextActivityId := db.nextActivityId + 1 }) := by
      simp [deleteTodo, hfind, logActivity, createActivity]
    refine ⟨by rw [hdel], by rw [hdel], by rw [hdel], ?_⟩
    rw [hdel]
    show getTodoById _ id = .notFound
    unfold getTodoById
    rw [show ({ db with
                todos := db.todos.filter fun x => !(x.id == id)
                activities := db.activities ++
                  [{ id := db.nextActivityId, todo_id := some id, action := "DELETE",
                     description := "Todo \"" ++ todo.title ++ "\" was deleted",
                     old_value := some (rowSnap todo), new_value := none,
                     user_ip := ip, user_agent := ua, created_at := db.clock }]
                nextActivityId := db.nextActivityId + 1 } : DB).todos =
        db.todos.filter fun x => !(x.id == id) from rfl]
    rw [find?_filter_not (fun x : TodoRow => x.id == id) db.todos]

/-- C6 witness: deleting todo 1 from the one-todo store `dbW`. -/
theorem deleteTodo_spec_witness :
    (deleteTodo false dbW 1 none none).1 = .ok ∧
    (deleteTodo false dbW 1 none none).2.todos =
      dbW.todos.filter (fun x => !(x.id == 1)) ∧
    (deleteTodo false dbW 1 none none).2.activities = dbW.activities ++
      [{ id := dbW.nextActivityId, todo_id := some 1, action := "DELETE",
         description := "Todo \"" ++ todoW.title ++ "\" was deleted",
         old_value := some (rowSnap todoW), new_value := none,
         user_ip := none, user_agent := none, created_at := dbW.clock }] ∧
    getTodoById (deleteTodo false dbW 1 none none).2 1 = .notFound :=
  deleteTodo_spec dbW 1 none none (some todoW) (by decide)

/-! Claim C7. -/

/-- When no stored todo carries `id`, the LEFT JOIN enriches an activity
referencing `id` with a NULL title. -/
theorem joinTitle_eq_none_of_no_todo (db : DB) (a : ActivityRow) (id : Nat)
    (ha : a.todo_id = some id) (h : ∀ t ∈ db.todos, t.id ≠ id) :
    joinTitle db a = { activity := a, todo_title := none } := by
  unfold joinTitle
  have hf : db.todos.find? (fun t => some t.id == a.todo_id) = none := by
    apply List.find?_eq_none.mpr
    intro t ht
    simp [ha]
    exact h t ht
  rw [hf]
  rfl

/-- In a store whose `todos` table has no row with the given id, the
per-todo activity query still returns every activity referencing that id,
each with a NULL joined title. -/
theorem delete_frame_core (db2 : DB) (id : Nat)
    (htodos : ∀ t ∈ db2.todos, t.id ≠ id) :
    (∀ a ∈ db2.activities, a.todo_id = some id →
       ({ activity := a, todo_title := none } : JoinedActivity) ∈
         getActivitiesByTodoId db2 id) ∧
    (∀ e ∈ getActivitiesByTodoId db2 id, e.todo_title = none) := by
  constructor
  · intro a ha hatid
    unfold getActivitiesByTodoId
    apply (List.perm_insertionSort byCreatedDesc _).mem_iff.mpr
    rw [← joinTitle_eq_none_of_no_todo db2 a id hatid htodos]
    apply List.mem_map_of_mem
    exact List.mem_filter.mpr ⟨ha, by simp [hatid]⟩
  · intro e he
    unfold getActivitiesByTodoId at he
    have he2 := (List.perm_insertionSort byCreatedDesc _).mem_iff.mp he
    obtain ⟨a, ha, rfl⟩ := List.mem_map.mp he2
    have hatid : a.todo_id = some id := by
      have := (List.mem_filter.mp ha).2
      simpa using this
    rw [joinTitle_eq_none_of_no_todo db2 a id hatid htodos]

/-- A list call with page 1 and the activity-table size as limit returns
the whole ordered per-todo query, i.e. exactly the unpaginated query. -/
theorem getAllActivities_full (db2 : DB) (tid : Nat) :
    (getAllActivities db2 1 db2.activities.length (some tid)).activities =
      getActivitiesByTodoId db2 tid := by
  show (((listQuery db2 (some tid)).drop ((1 - 1) * db2.activities.length)).take
      db2.activities.length) = _
  have hlen : (listQuery db2 (some tid)).length ≤ db2.activities.length := by
    rw [listQuery_length]
    exact List.length_filter_le _ _
  rw [show (1 - 1) * db2.activities.length = 0 from Nat.zero_mul _, List.drop_zero,
    List.take_of_length_le hlen]
  rfl

/-- C7: deleting a todo leaves every pre-existing activity row in the
table unchanged (nothing is modified or removed; the count of rows
referencing the id grows only by the one new DELETE record), each such
row still carries the dangling `todo_id`, and both the per-todo query and
the paginated list for that id still return all of them — now joined with
a NULL todo title. -/
theorem deleteTodo_preserves_activities (db : DB) (id : Nat)
    (ip ua : Option String) (todo : TodoRow)
    (hfind : db.todos.find? (fun x => x.id == id) = some todo) :
    (∀ a ∈ db.activities, a ∈ (deleteTodo false db id ip ua).2.activities) ∧
    ((deleteTodo false db id ip ua).2.activities.filter
        fun a => a.todo_id == some id).length
      = (db.activities.filter fun a => a.todo_id == some id).length + 1 ∧
    (∀ a ∈ db.activities.filter (fun a => a.todo_id == some id),
        ({ activity := a, todo_title := none } : JoinedActivity) ∈
          getActivitiesByTodoId (deleteTodo false db id ip ua).2 id) ∧
    (∀ e ∈ getActivitiesByTodoId (deleteTodo false db id ip ua).2 id,
        e.todo_title = none) ∧
    (∀ a ∈ db.activities.filter (fun a => a.todo_id == some id),
        ({ activity := a, todo_title := none } : JoinedActivity) ∈
          (getAllActivities (deleteTodo false db id ip ua).2 1
            (deleteTodo false db id ip ua).2.activities.length (some id)).activities) ∧
    (∀ e ∈ (getAllActivities (deleteTodo false db id ip ua).2 1
            (deleteTodo false db id ip ua).2.activities.length (some id)).activities,
        e.todo_title = none) := by
  have hdel : deleteTodo false db id ip ua =
      (.ok, { db with
              todos := db.todos.filter fun x => !(x.id == id)
              activities := db.activities ++
                [{ id := db.nextActivityId, todo_id := some id, action := "DELETE",
                   description := "Todo \"" ++ todo.title ++ "\" was deleted",
                   old_value := some (rowSnap todo), new_value := none,
                   user_ip := ip, user_agent := ua, created_at := db.clock }]
              nextActivityId := db.nextActivityId + 1 }) := by
    simp [deleteTodo, hfind, logActivity, createActivity]
  have hacts : (deleteTodo false db id ip ua).2.activities = db.activities ++
      [{ id := db.nextActivityId, todo_id := some id, action := "DELETE",
         description := "Todo \"" ++ todo.title ++ "\" was deleted",
         old_value := some (rowSnap todo), new_value := none,
         user_ip := ip, user_agent := ua, created_at := db.clock }] := by
    rw [hdel]
  have htod : (deleteTodo false db id ip ua).2.todos =
      db.todos.filter fun x => !(x.id == id) := by
    rw [hdel]
  have htodos2 : ∀ t ∈ (deleteTodo false db id ip ua).2.todos, t.id ≠ id := by
    intro t ht
    rw [htod] at ht
    have := (List.mem_filter.mp ht).2
    simpa using this
  have hcore := delete_frame_core (deleteTodo false db id ip ua).2 id htodos2
  refine ⟨?_, ?_, ?_, hcore.2, ?_, ?_⟩
  · intro a ha
    rw [hacts]
    exact List.mem_append_left _ ha
  · rw [hacts, List.filter_append]
    simp
  · intro a ha
    exact hcore.1 a (by rw [hacts]; exact List.mem_append_left _ (List.mem_filter.mp ha).1)
      (by simpa using (List.mem_filter.mp ha).2)
  · intro a ha
    rw [getAllActivities_full]
    exact hcore.1 a (by rw [hacts]; exact List.mem_append_left _ (List.mem_filter.mp ha).1)
      (by simpa using (List.mem_filter.mp ha).2)
  · intro e he
    rw [getAllActivities_full] at he
    exact hcore.2 e he

/-- Store holding a todo together with its two prior activities, used by
the C7 witness. -/
def dbTodoActs : DB :=
  { todos := [todoW], nextTodoId := 2,
    activities := [actRow 1 (some 1) "CREATE" 10, actRow 2 (some 1) "UPDATE" 20],
    nextActivityId := 3, clock := 40 }

/-- C7 witness: deleting todo 1 from `dbTodoActs` (which has two prior
activities for it). -/
theorem deleteTodo_preserves_activities_witness :
    (∀ a ∈ dbTodoActs.activities, a ∈ (deleteTodo false dbTodoActs 1 none none).2.activities) ∧
    ((deleteTodo false dbTodoActs 1 none none).2.activities.filter
        fun a => a.todo_id == some 1).length
      = (dbTodoActs.activities.filter fun a => a.todo_id == some 1).length + 1 ∧
    (∀ a ∈ dbTodoActs.activities.filter (fun a => a.todo_id == some 1),
        ({ activity := a, todo_title := none } : JoinedActivity) ∈
          getActivitiesByTodoId (deleteTodo false dbTodoActs 1 none none).2 1) ∧
    (∀ e ∈ getActivitiesByTodoId (deleteTodo false dbTodoActs 1 none none).2 1,
        e.todo_title = none) ∧
    (∀ a ∈ dbTodoActs.activities.filter (fun a => a.todo_id == some 1),
        ({ activity := a, todo_title := none } : JoinedActivity) ∈
          (getAllActivities (deleteTodo false dbTodoActs 1 none none).2 1
            (deleteTodo false dbTodoActs 1 none none).2.activities.length (some 1)).activities) ∧
    (∀ e ∈ (getAllActivities (deleteTodo false dbTodoActs 1 none none).2 1
            (deleteTodo false dbTodoActs 1 none none).2.activities.length (some 1)).activities,
        e.todo_title = none) :=
  deleteTodo_preserves_activities dbTodoActs 1 none none todoW (by decide)

/-! Claim C8. -/

/-- C8: every page returned by the list call and every per-todo query
result is ordered by `created_at` descending (most recent first). -/
theorem activities_ordered_by_created_at_desc (db : DB) (P L : Nat)
    (tf : Option Nat) (todoId : Nat) :
    (getAllActivities db P L tf).activities.Pairwise byCreatedDesc ∧
    (getActivitiesByTodoId db todoId).Pairwise byCreatedDesc := by
  constructor
  · show (((listQuery db tf).drop ((P - 1) * L)).take L).Pairwise byCreatedDesc
    have hs : (listQuery db tf).Pairwise byCreatedDesc :=
      List.sorted_insertionSort byCreatedDesc _
    exact hs.sublist
      ((((listQuery db tf).drop ((P - 1) * L)).take_sublist L).trans
        ((listQuery db tf).drop_sublist ((P - 1) * L)))
  · unfold getActivitiesByTodoId
    exact List.sorted_insertionSort byCreatedDesc _

/-! Claim C9. -/

/-- C9: at a single store state, `stats().byAction` has exactly one entry
per distinct action value observed in the log (no duplicates, and an
action appears iff some activity carries it), and the per-action counts
sum to `stats().total`, the count of all activities. -/
theorem stats_byAction_partitions_total (db : DB) :
    ((getActivityStats db).byAction.map Prod.snd).sum = (getActivityStats db).total ∧
    ((getActivityStats db).byAction.map Prod.fst).Nodup ∧
    ∀ s : String, (s ∈ (getActivityStats db).byAction.map Prod.fst ↔
      s ∈ db.activities.map fun a => a.action) := by
  have h1 : (getActivityStats db).byAction =
      (db.activities.map fun a => a.action).dedup.map
        (fun s => (s, (db.activities.map fun a => a.action).count s)) := rfl
  refine ⟨?_, ?_, ?_⟩
  · rw [h1, List.map_map]
    have h2 : ((db.activities.map fun a => a.action).dedup.map
        (Prod.snd ∘ fun s => (s, (db.activities.map fun a => a.action).count s)))
        = ((db.activities.map fun a => a.action).dedup.map
            (fun s => (db.activities.map fun a => a.action).count s)) := rfl
    rw [h2, List.sum_map_count_dedup_eq_length, List.length_map]
    rfl
  · rw [h1, List.map_map]
    have h2 : (Prod.fst ∘ fun s => (s, (db.activities.map fun a => a.action).count s))
        = id := rfl
    rw [h2, List.map_id]
    exact List.nodup_dedup _
  · intro s
    rw [h1, List.map_map]
    have h2 : (Prod.fst ∘ fun s => (s, (db.activities.map fun a => a.action).count s))
        = id := rfl
    rw [h2, List.map_id]
    exact List.mem_dedup

/-! Claim C10. -/

/-- C10: `getActivityById` answers 404 exactly when no activity row with
the requested id exists; when the row exists but its `todo_id` no longer
resolves to a stored todo (orphaned reference), the call still succeeds
and returns the activity with a NULL joined `todo_title` instead of an
error. -/
theorem getActivityById_notFound_iff_absent (db : DB) (id : Nat) :
    (getActivityById db id = .notFound ↔
      (db.activities.all fun a => a.id != id) = true) ∧
    ∀ a, db.activities.find? (fun x => x.id == id) = some a →
      (db.todos.all fun t => some t.id != a.todo_id) = true →
      getActivityById db id = .found { activity := a, todo_title := none } := by
  constructor
  · cases hf : db.activities.find? (fun x => x.id == id) with
    | none =>
      simp only [getActivityById, hf]
      have hnone := List.find?_eq_none.mp hf
      constructor
      · intro _
        rw [List.all_eq_true]
        intro x hx
        have h2 := hnone x hx
        simpa using h2
      · intro _
        trivial
    | some a =>
      simp only [getActivityById, hf]
      constructor
      · intro h
        exact absurd h (by simp)
      · intro hall
        have hpa := List.find?_some hf
        rw [List.all_eq_true] at hall
        have h2 := hall a (List.mem_of_find?_eq_some hf)
        simp at hpa h2
        exact absurd hpa h2
  · intro a hf hall
    have hjoin : db.todos.find? (fun t => some t.id == a.todo_id) = none := by
      apply List.find?_eq_none.mpr
      intro t ht
      rw [List.all_eq_true] at hall
      have h2 := hall t ht
      simpa using h2
    simp [getActivityById, hf, joinTitle, hjoin]

/-- An orphaned activity: its `todo_id` references todo 1, which does not
exist in `dbOrphan`. -/
def actOrphan : ActivityRow := actRow 1 (some 1) "DELETE" 30

/-- Store holding only the orphaned activity and no todos. -/
def dbOrphan : DB :=
  { todos := [], nextTodoId := 2, activities := [actOrphan],
    nextActivityId := 2, clock := 40 }

/-- C10 witness: id 9 is absent (404 iff no row), while the orphaned
activity 1 is returned with a NULL joined title. -/
theorem getActivityById_notFound_iff_absent_witness :
    (getActivityById dbOrphan 9 = .notFound ↔
      (dbOrphan.activities.all fun a => a.id != 9) = true) ∧
    getActivityById dbOrphan 1 = .found { activity := actOrphan, todo_title := none } :=
  ⟨(getActivityById_notFound_iff_absent dbOrphan 9).1,
   (getActivityById_notFound_iff_absent dbOrphan 1).2 actOrphan (by decide) (by decide)⟩
